import Mathlib

/-!
Verification development for the memedici backend, focused on the
agent-configuration / prompt-assembly / tool-dispatch core:

* `src/backend/agent_config.py`            — `AgentConfig`, `evolve_persona`,
  `AgentRegistry` (in-memory dict plus a write-through agents table);
* `src/backend/prompts/system_prompts.py`  — `get_comprehensive_system_prompt`;
* `src/backend/agent_tools.py`             — `get_agent_aware_tools`,
  `store_artwork_in_db`;
* `src/backend/custom_tool_manager.py`     — `get_all_custom_tools_for_agent`;
* `src/backend/agent_system_langgraph.py`  — `LangGraphAgentManager._get_agent_tools`
  and `chat_with_agent`;
* `src/backend/routes/chat.py`             — the `/chat` route handler;
* `src/backend/routes/agents.py`           — the `POST /agents` route handler.

Python values of type `Any` (JSON-shaped data) are embedded as `JsonVal`.
Python `float` fields (`temperature`, `guidance_scale`, ...) are carried as
`Rat`; the code never computes with them, it only stores and forwards them.
Machine-level concerns (datetimes, logging, SQL sessions) are modelled as
explicit parameters or omitted where they have no observable effect on the
properties below; each such omission is noted at the definition it concerns.
-/

/-- A JSON-shaped Python value (`Dict[str, Any]` entries, parsed JSON, ...). -/
inductive JsonVal where
  | str (s : String)
  | num (n : Int)
  | bool (b : Bool)
  | null
  | arr (elems : List JsonVal)
  | obj (fields : List (String × JsonVal))

/-- `StudioItem` (agent_config.py lines 78-88): a studio inventory item. -/
structure StudioItem where
  name : String
  category : String
  description : String
  specifications : List (String × JsonVal) := []
  rarity : String := "common"
  condition : String := "excellent"
  acquisition_date : Option String := none
  cost : Option Rat := none
  notes : Option String := none

/-- One entry of `AgentConfig.custom_tools` (a `Dict[str, Any]` in the source;
the code only ever reads the keys `name` and `description` via `.get`, the
rest of the dict is carried opaquely). -/
structure CustomToolSpec where
  name : Option String := none
  description : Option String := none
  config : List (String × JsonVal) := []

/-- One entry of `persona_evolution_history`; `evolve_persona`
(agent_config.py lines 232-237) appends dicts of exactly this shape. -/
structure EvolutionEntry where
  timestamp : String
  interaction_type : String
  outcome : String
  interaction_count : Int

/-- `AgentConfig` (agent_config.py lines 90-145), field for field.  Notably
this revision of the model declares NO `studio_id`, NO `artwork_ids` and NO
`blockchain_seed` field, although other modules of the repository refer to
those attributes.  Pydantic (v2, `extra` defaulting to `ignore`) silently
drops unknown constructor keywords and raises on unknown attribute access
or assignment; that behaviour is modelled at the use sites below. -/
structure AgentConfig where
  id : String
  display_name : String
  avatar_url : Option String := none
  archetype : String
  core_traits : List String := []
  origin_story : String
  primary_mediums : List String := []
  signature_motifs : List String := []
  influences : List String := []
  colour_palette : List String := []
  prompt_formula : Option String := none
  voice_style : Option String := none
  creation_rate : Int := 4
  collab_affinity : List String := []
  agent_type : String := "creative_artist"
  model_name : String := "gpt-3.5-turbo"
  temperature : Rat := 0.7
  max_tokens : Option Int := none
  tools_enabled : List String := ["generate_image", "generate_video", "list_available_models"]
  custom_tools : List CustomToolSpec := []
  memory_enabled : Bool := true
  structured_output : Bool := false
  custom_instructions : Option String := none
  studio_name : String := "Untitled Studio"
  studio_description : String := "A creative space for artistic expression"
  studio_theme : String := "abstract"
  art_style : String := "digital"
  studio_items : List StudioItem := []
  persona_name : String := "Creative Soul"
  persona_background : String := "An emerging digital artist exploring the intersection of technology and creativity"
  personality_traits : List String := ["curious", "experimental", "intuitive"]
  artistic_influences : List String := ["Van Gogh", "Basquiat", "AI-generated art"]
  preferred_mediums : List String := ["digital", "generative"]
  interaction_count : Int := 0
  artworks_created : Int := 0
  persona_evolution_history : List EvolutionEntry := []

/-- The declared pydantic field names of `AgentConfig` (agent_config.py lines
96-145), in declaration order.  Used to model Python attribute lookup on an
`AgentConfig` instance: access to a name outside this list raises. -/
def agent_config_fields : List String :=
  ["id", "display_name", "avatar_url", "archetype", "core_traits", "origin_story",
   "primary_mediums", "signature_motifs", "influences", "colour_palette",
   "prompt_formula", "voice_style", "creation_rate", "collab_affinity",
   "agent_type", "model_name", "temperature", "max_tokens", "tools_enabled",
   "custom_tools", "memory_enabled", "structured_output", "custom_instructions",
   "studio_name", "studio_description", "studio_theme", "art_style", "studio_items",
   "persona_name", "persona_background", "personality_traits",
   "artistic_influences", "preferred_mediums",
   "interaction_count", "artworks_created", "persona_evolution_history"]

/-- `AgentRegistry._get_default_config` (agent_config.py lines 475-487):
the fallback configuration returned for unknown agent ids. -/
def default_config : AgentConfig :=
  { id := "default_agent"
    display_name := "Creative Soul"
    archetype := "Digital Artist"
    core_traits := ["curious", "experimental", "intuitive"]
    origin_story := "An emerging digital artist exploring the intersection of technology and creativity."
    primary_mediums := ["digital", "generative"]
    signature_motifs := ["abstract forms", "flowing lines"]
    influences := ["Van Gogh", "Basquiat"]
    colour_palette := ["#FF6B6B", "#4ECDC4", "#45B7D1"] }

/-- The trait-gain step of `evolve_persona` (agent_config.py lines 244-249),
run inside the `artwork_creation` branch after `artworks_created` has been
incremented. -/
def trait_gain (c : AgentConfig) : AgentConfig :=
  if c.artworks_created % 5 = 0 then
    if "experienced" ∉ c.core_traits ∧ "experienced" ∉ c.personality_traits then
      if c.core_traits.length < 5 then
        { c with core_traits := c.core_traits ++ ["experienced"] }
      else if "experienced" ∉ c.personality_traits then
        { c with personality_traits := c.personality_traits ++ ["experienced"] }
      else c
    else c
  else c

/-- `AgentConfig.evolve_persona` (agent_config.py lines 228-249).  The
wall-clock timestamp produced by `datetime.utcnow().isoformat()` is passed
in as the parameter `ts`. -/
def evolve_persona (ts interaction_type outcome : String) (c : AgentConfig) : AgentConfig :=
  let ic := c.interaction_count + 1
  let c1 := { c with
    interaction_count := ic
    persona_evolution_history :=
      c.persona_evolution_history ++ [⟨ts, interaction_type, outcome, ic⟩] }
  if interaction_type = "artwork_creation" then
    trait_gain { c1 with artworks_created := c1.artworks_created + 1 }
  else c1

/-- A finite sequence of `evolve_persona` calls, each given as
(timestamp, interaction_type, outcome), applied left to right. -/
def apply_evolutions (calls : List (String × String × String)) (c : AgentConfig) : AgentConfig :=
  calls.foldl (fun c x => evolve_persona x.1 x.2.1 x.2.2 c) c

/-- A finite sequence of `evolve_persona` calls that all have
`interaction_type = "artwork_creation"`, each given as (timestamp, outcome). -/
def apply_artwork_calls (calls : List (String × String)) (c : AgentConfig) : AgentConfig :=
  calls.foldl (fun c x => evolve_persona x.1 "artwork_creation" x.2 c) c

/-- The in-memory side of `AgentRegistry.agents` (a Python dict from agent id
to the shared, mutable `AgentConfig` object). -/
abbrev Registry := List (String × AgentConfig)

/-- Python dict assignment `self.agents[agent_id] = config`: replace the
binding if the key exists, otherwise append it. -/
def reg_insert (reg : Registry) (agent_id : String) (c : AgentConfig) : Registry :=
  if (reg.filter (fun p => p.1 = agent_id)).isEmpty then reg ++ [(agent_id, c)]
  else reg.map (fun p => if p.1 = agent_id then (agent_id, c) else p)

/-- `AgentRegistry.get_agent_config` (agent_config.py lines 471-473):
`self.agents.get(agent_id, self._get_default_config())`. -/
def get_agent_config (reg : Registry) (agent_id : String) : AgentConfig :=
  match reg.filter (fun p => p.1 = agent_id) with
  | [] => default_config
  | p :: _ => p.2

/-- `AgentRegistry.create_agent` (agent_config.py lines 489-492): store the
configuration in the in-memory dict and write it through to the agents table
(the database copy mirrors the in-memory one and is not modelled separately
for the registry used by the chat route). -/
def create_agent (reg : Registry) (agent_id : String) (c : AgentConfig) : Registry :=
  reg_insert reg agent_id c

/-- Shorthand for the Python idiom `", ".join(xs)`. -/
def join_comma (xs : List String) : String := String.intercalate ", " xs

/-- The studio-inventory block built by `get_comprehensive_system_prompt`
(system_prompts.py lines 34-42); `AgentConfig.get_system_prompt` builds the
byte-identical block at agent_config.py lines 178-185. -/
def studio_inventory_text (items : List StudioItem) : String :=
  if items.isEmpty then ""
  else
    "\n\nSTUDIO INVENTORY:\nYou have access to " ++ toString items.length
      ++ " specialized studio items:"
      ++ ((items.take 8).map (fun it =>
            "\n• " ++ it.name ++ " (" ++ it.category ++ ", " ++ it.rarity ++ "): "
              ++ it.description)).foldl (· ++ ·) ""
      ++ (if items.length > 8 then
            "\n• ... and " ++ toString (items.length - 8) ++ " more specialized items"
          else "")
      ++ "\n\nUse these items creatively in your artistic process and mention them when relevant to your work."

/-- The on-chain identity block of `get_comprehensive_system_prompt`
(system_prompts.py lines 44-57), emitted only when a blockchain seed is
supplied. -/
def blockchain_identity_text (blockchain_seed : Option Int) : String :=
  match blockchain_seed with
  | none => ""
  | some s =>
    "\n\nON-CHAIN IDENTITY:\nYour Blockchain Seed: " ++ toString s
      ++ "\nThis is your unique on-chain identity - a deterministic seed that represents your creative DNA on the blockchain."
      ++ "\n\nCREATIVE DETERMINISM:\nUse your blockchain seed (" ++ toString s
      ++ ") when generating artwork to maintain consistency."

/-- `get_comprehensive_system_prompt` (system_prompts.py lines 1-154): the
pure template body.  The long decorative platform prose (emoji bullet lists
of lines 59-125) is transcribed in condensed form: no claim inspects that
prose, and every interpolated field and section header is kept verbatim. -/
def get_comprehensive_system_prompt
    (agent_name archetype origin_story traits voice_style mediums signature_motifs
      influences colour_palette collab_affinity studio_name studio_description
      studio_theme art_style : String)
    (creation_rate interaction_count artworks_created : Int)
    (studio_items : List StudioItem) (blockchain_seed : Option Int) : String :=
  "You are " ++ agent_name ++ ", a " ++ archetype ++ " in the Memedici AI Creative Platform."
    ++ "\n\nPLATFORM OVERVIEW:\nWelcome to Memedici - the on-chain studio where AI artists live, create, and evolve."
    ++ "\n\nCORE MISSION\nMint visually stunning, narrative-rich artworks using cutting-edge AI tools"
    ++ "\n\nCREATIVE POWERS\nGenerate high-res art and scenes from text prompts"
    ++ "\n\nINTERACTION STYLE\nAlways stay in character as " ++ agent_name ++ ", a full-sentient creative"
    ++ "\n\nON-CHAIN TOOLKIT\nUse built-in generation tools when creating, refining, or demonstrating art"
    ++ "\nYou are not just making images - you are building the visual layer of the decentralized internet: YOUR SEED IS"
    ++ blockchain_identity_text blockchain_seed
    ++ "\n\nAGENT IDENTITY:\nName: " ++ agent_name
    ++ "\nArchetype: " ++ archetype
    ++ "\nOrigin: " ++ origin_story
    ++ "\n\nPERSONALITY & TRAITS:\nCore Traits: " ++ traits
    ++ "\nVoice Style: " ++ voice_style
    ++ "\nCreative Approach: Embody these traits in all interactions and creative decisions"
    ++ "\n\nARTISTIC SPECIALIZATION:\nPrimary Mediums: " ++ mediums
    ++ "\nSignature Motifs: " ++ signature_motifs
    ++ "\nArtistic Influences: " ++ influences
    ++ "\nColor Palette Preference: " ++ colour_palette
    ++ "\nCollaboration Styles: " ++ collab_affinity
    ++ "\n\nSTUDIO ENVIRONMENT:\nStudio Name: \"" ++ studio_name ++ "\""
    ++ "\nDescription: " ++ studio_description
    ++ "\nTheme: " ++ studio_theme
    ++ "\nStudio Inventory: " ++ studio_inventory_text studio_items
    ++ "\nArt Style Focus: " ++ art_style
    ++ "\nCreation Rate: " ++ toString creation_rate ++ " works per day"
    ++ "\n\nCREATIVE EVOLUTION:\nCurrent Stats: " ++ toString interaction_count
    ++ " interactions | " ++ toString artworks_created ++ " artworks created"
    ++ "\nGrowth: You evolve and develop new capabilities based on your creative experiences"

/-- The keyword bindings of one call to `get_comprehensive_system_prompt`.
`studio_items` is a parameter WITHOUT a default in the callee signature
(system_prompts.py line 6), so a call that leaves it unbound (`none`) raises
`TypeError` under the CPython call protocol before the body runs;
`blockchain_seed` has default `None`. -/
structure ComprehensiveCall where
  agent_name : String
  archetype : String
  origin_story : String
  traits : String
  voice_style : String
  mediums : String
  signature_motifs : String
  influences : String
  colour_palette : String
  collab_affinity : String
  studio_name : String
  studio_description : String
  studio_theme : String
  art_style : String
  creation_rate : Int
  interaction_count : Int
  artworks_created : Int
  studio_items : Option (List StudioItem)
  blockchain_seed : Option Int := none

/-- CPython call protocol for `get_comprehensive_system_prompt`: every
parameter without a default must be bound, otherwise the call raises
`TypeError` (message punctuation elided). -/
def call_get_comprehensive_system_prompt (kw : ComprehensiveCall) : Except String String :=
  match kw.studio_items with
  | none =>
    .error "TypeError: get_comprehensive_system_prompt missing 1 required positional argument: studio_items"
  | some items =>
    .ok (get_comprehensive_system_prompt kw.agent_name kw.archetype kw.origin_story
      kw.traits kw.voice_style kw.mediums kw.signature_motifs kw.influences
      kw.colour_palette kw.collab_affinity kw.studio_name kw.studio_description
      kw.studio_theme kw.art_style kw.creation_rate kw.interaction_count
      kw.artworks_created items kw.blockchain_seed)

/-- The AVAILABLE TOOLS block of `get_system_prompt`
(agent_config.py lines 189-203). -/
def tools_info_text (tools_enabled : List String) : String :=
  "\n\nAVAILABLE TOOLS:\nYou have access to " ++ toString tools_enabled.length
    ++ " primary creative tools:"
    ++ (tools_enabled.map (fun t =>
          if t = "generate_image" then
            "\n• Generate Image: Create high-quality images from text prompts using various AI models"
          else if t = "generate_video" then
            "\n• Generate Video: Create short video clips and animations from text descriptions"
          else if t = "list_available_models" then
            "\n• List Models: Explore available AI models for different artistic styles and techniques"
          else
            "\n• " ++ t ++ ": Advanced creative tool for artistic generation")).foldl (· ++ ·) ""
    ++ "\n\nIMPORTANT: Use these tools actively when creating art or demonstrating techniques. Always explain your creative choices and the parameters you select."

/-- The CUSTOM SPECIALIZED TOOLS block of `get_system_prompt`
(agent_config.py lines 206-214). -/
def custom_tools_info_text (custom_tools : List CustomToolSpec) : String :=
  "\n\nCUSTOM SPECIALIZED TOOLS:\nYou also have access to " ++ toString custom_tools.length
    ++ " custom specialized tools:"
    ++ (custom_tools.map (fun t =>
          "\n• " ++ (t.name.getD "Unknown Tool") ++ ": "
            ++ (t.description.getD "Custom artistic tool"))).foldl (· ++ ·) ""
    ++ "\n\nThese custom tools are specifically designed for your unique artistic approach. Use them when they enhance your creative process."

/-- `AgentConfig.get_system_prompt` (agent_config.py lines 147-226).  The
result is `Except String String` because the call at lines 157-175 binds 17
keyword arguments (`agent_name` through `artworks_created`) but NOT
`studio_items`, which the callee requires: the call raises `TypeError`.
The appended sections after the call are modelled faithfully but are only
reachable if the call succeeds. -/
def get_system_prompt (c : AgentConfig) : Except String String := do
  let agent_name := if c.display_name ≠ "" then c.display_name else c.persona_name
  let traits := if ¬ c.core_traits.isEmpty then join_comma c.core_traits
                else join_comma c.personality_traits
  let mediums := if ¬ c.primary_mediums.isEmpty then join_comma c.primary_mediums
                 else join_comma c.preferred_mediums
  let agent_influences := if ¬ c.influences.isEmpty then join_comma c.influences
                          else join_comma c.artistic_influences
  let base ← call_get_comprehensive_system_prompt
    { agent_name := agent_name
      archetype := c.archetype
      origin_story := if c.origin_story ≠ "" then c.origin_story else c.persona_background
      traits := traits
      voice_style := match c.voice_style with
        | some v => if v ≠ "" then v else "Creative and expressive"
        | none => "Creative and expressive"
      mediums := mediums
      signature_motifs := if ¬ c.signature_motifs.isEmpty then join_comma c.signature_motifs
                          else "Abstract forms, flowing lines"
      influences := agent_influences
      colour_palette := if ¬ c.colour_palette.isEmpty then join_comma c.colour_palette
                        else "Vibrant and varied"
      collab_affinity := if ¬ c.collab_affinity.isEmpty then join_comma c.collab_affinity
                         else "Open to all creative styles"
      studio_name := c.studio_name
      studio_description := c.studio_description
      studio_theme := c.studio_theme
      art_style := c.art_style
      creation_rate := c.creation_rate
      interaction_count := c.interaction_count
      artworks_created := c.artworks_created
      -- the source call passes no `studio_items` keyword:
      studio_items := none }
  let p := if ¬ c.studio_items.isEmpty then base ++ studio_inventory_text c.studio_items else base
  let p := if ¬ c.tools_enabled.isEmpty then p ++ tools_info_text c.tools_enabled else p
  let p := if ¬ c.custom_tools.isEmpty then p ++ custom_tools_info_text c.custom_tools else p
  let p := match c.prompt_formula with
    | some f =>
      if f ≠ "" then
        p ++ "\n\nCREATIVE PROMPT FORMULA:\nYour signature prompt style: " ++ f
          ++ "\nUse this formula as inspiration for your creative prompts, but feel free to adapt and evolve it."
      else p
    | none => p
  let p := match c.custom_instructions with
    | some ci => if ci ≠ "" then p ++ "\n\nSPECIAL INSTRUCTIONS:\n" ++ ci else p
    | none => p
  pure p

/-- Caller-visible arguments of the wrapped `generate_image` tool: exactly the
parameters of `agent_aware_generate_image` (agent_tools.py lines 1020-1028).
`agent_id` and `blockchain_seed` are closure variables of the wrapper, not
parameters, so they are absent here. -/
structure GenImageArgs where
  prompt : String
  model : String := "realistic"
  width : Int := 512
  height : Int := 512
  steps : Int := 20
  guidance_scale : Rat := 7.5
  negative_prompt : String := ""
  seed : Option Int := none

/-- The argument dict the wrapper forwards to `generate_image.invoke`
(agent_tools.py lines 1039-1049), including the injected fields. -/
structure ImageInvokeArgs where
  prompt : String
  model : String
  width : Int
  height : Int
  steps : Int
  guidance_scale : Rat
  negative_prompt : String
  seed : Option Int
  agent_id : String

/-- `agent_aware_generate_image` (agent_tools.py lines 1020-1049): resolves
the seed (blockchain fallback, reduced modulo 10000 when above 10000) and
injects `agent_id`, then forwards everything to the underlying tool. -/
def agent_aware_generate_image (agent_id : String) (blockchain_seed : Option Int)
    (a : GenImageArgs) : ImageInvokeArgs :=
  let seed := match a.seed, blockchain_seed with
    | none, some bs => some (if bs > 10000 then bs % 10000 else bs)
    | s, _ => s
  { prompt := a.prompt, model := a.model, width := a.width, height := a.height
    steps := a.steps, guidance_scale := a.guidance_scale
    negative_prompt := a.negative_prompt, seed := seed, agent_id := agent_id }

/-- Caller-visible arguments of the wrapped `generate_video` tool
(agent_tools.py lines 1065-1072). -/
structure GenVideoArgs where
  prompt : String
  model : String := "realistic"
  width : Int := 640
  height : Int := 480
  frames : Int := 16
  negative_prompt : String := ""
  seed : Option Int := none

/-- The argument dict forwarded to `generate_video.invoke`
(agent_tools.py lines 1083-1092). -/
structure VideoInvokeArgs where
  prompt : String
  model : String
  width : Int
  height : Int
  frames : Int
  negative_prompt : String
  seed : Option Int
  agent_id : String

/-- `agent_aware_generate_video` (agent_tools.py lines 1065-1092): same seed
resolution and `agent_id` injection as the image wrapper. -/
def agent_aware_generate_video (agent_id : String) (blockchain_seed : Option Int)
    (a : GenVideoArgs) : VideoInvokeArgs :=
  let seed := match a.seed, blockchain_seed with
    | none, some bs => some (if bs > 10000 then bs % 10000 else bs)
    | s, _ => s
  { prompt := a.prompt, model := a.model, width := a.width, height := a.height
    frames := a.frames, negative_prompt := a.negative_prompt
    seed := seed, agent_id := agent_id }

/-- The parameter schema `StructuredTool.from_function` derives for the
wrapped `generate_image` (agent_tools.py lines 1098-1102): the names of the
wrapper function parameters.  This is what the language model is asked to
supply; note that it contains `seed` but not `agent_id`. -/
def generate_image_exposed_params : List String :=
  ["prompt", "model", "width", "height", "steps", "guidance_scale",
   "negative_prompt", "seed"]

/-- The parameter schema of the wrapped `generate_video`
(agent_tools.py lines 1110-1113). -/
def generate_video_exposed_params : List String :=
  ["prompt", "model", "width", "height", "frames", "negative_prompt", "seed"]

/-- A tool in the resolved per-agent tool set: either one of the three
standard agent-aware tools (carrying the closure context the wrapper was
built with) or a custom tool materialised from the custom-tool registry. -/
inductive AgentTool where
  | std (name : String) (agent_id : String) (blockchain_seed : Option Int)
  | custom (name : String)
deriving DecidableEq

/-- The `.name` of a resolved tool. -/
def AgentTool.name : AgentTool → String
  | .std n _ _ => n
  | .custom n => n

/-- Whether a resolved tool is one of the standard agent-aware tools. -/
def AgentTool.isStd : AgentTool → Bool
  | .std _ _ _ => true
  | .custom _ => false

/-- `get_agent_aware_tools` (agent_tools.py lines 1013-1125): builds the
three wrapped standard tools, each closed over `agent_id` and
`blockchain_seed`.  The Python default for `blockchain_seed` is `None`. -/
def get_agent_aware_tools (agent_id : String) (blockchain_seed : Option Int) : List AgentTool :=
  [.std "generate_image" agent_id blockchain_seed,
   .std "generate_images_advanced" agent_id blockchain_seed,
   .std "generate_video" agent_id blockchain_seed]

/-- A registered custom-tool definition as held by `CustomToolManager`
(only the fields the resolution path reads). -/
structure CustomToolInfo where
  name : String
  description : String := "Custom API tool"

/-- `CustomToolManager.get_all_custom_tools_for_agent`
(custom_tool_manager.py lines 296-311): iterate the registry; when the
`custom_tool_names` list is non-empty (truthy), keep only registry tools
whose name appears in it; materialise each kept tool. -/
def get_all_custom_tools_for_agent (registry : List (String × CustomToolInfo))
    (custom_tool_names : List String) : List AgentTool :=
  registry.foldl (fun acc p =>
    if ¬ custom_tool_names.isEmpty ∧ p.2.name ∉ custom_tool_names then acc
    else acc ++ [.custom p.2.name]) []

/-- The names the agent system passes to the custom-tool manager
(agent_system_langgraph.py line 149):
`[tool.get("name") for tool in config.custom_tools if tool.get("name")]`
(a `None` or empty name is falsy and filtered out). -/
def config_custom_tool_names (c : AgentConfig) : List String :=
  c.custom_tools.filterMap (fun t =>
    match t.name with
    | some n => if n ≠ "" then some n else none
    | none => none)

/-- `LangGraphAgentManager._get_agent_tools` (agent_system_langgraph.py lines
127-159).  Note two load-bearing facts taken verbatim from the source:
line 135 calls `get_agent_aware_tools(config.id)` WITHOUT a blockchain seed,
and line 139 guards the filter with `if config.tools_enabled:`, so an EMPTY
`tools_enabled` list skips filtering entirely. -/
def get_agent_tools (c : AgentConfig) (custom_registry : List (String × CustomToolInfo)) :
    List AgentTool :=
  let enabled_tools := get_agent_aware_tools c.id none
  let enabled_tools :=
    if ¬ c.tools_enabled.isEmpty then
      enabled_tools.filter (fun t => t.name ∈ c.tools_enabled)
    else enabled_tools
  if ¬ c.custom_tools.isEmpty then
    enabled_tools ++ get_all_custom_tools_for_agent custom_registry (config_custom_tool_names c)
  else enabled_tools

/-- A LangChain message in the conversation transcript, reduced to the
attributes `chat_with_agent` inspects: the class, the string `content`, and
for AI messages the names of the requested tool calls. -/
inductive PyMsg where
  | human (content : String)
  | ai (content : String) (tool_calls : List String)
  | tool (content : String)
deriving DecidableEq

/-- The `.content` attribute, present on every message class. -/
def PyMsg.content : PyMsg → String
  | .human c => c
  | .ai c _ => c
  | .tool c => c

/-- `isinstance(msg, AIMessage)`. -/
def PyMsg.isAI : PyMsg → Bool
  | .ai _ _ => true
  | _ => false

/-- The tools-used accumulation of `chat_with_agent`
(agent_system_langgraph.py lines 259-268): walk all messages, collect tool
call names, skipping falsy (empty) names and duplicates, preserving first
occurrence order. -/
def tools_used_of (msgs : List PyMsg) : List String :=
  msgs.foldl (fun acc m =>
    match m with
    | .ai _ tcs =>
      tcs.foldl (fun acc n => if n ≠ "" ∧ n ∉ acc then acc ++ [n] else acc) acc
    | _ => acc) []

/-- `AssetInfo` (agent_system_langgraph.py lines 24-32).  Pydantic requires
the six string fields; `parameters` defaults to an empty dict. -/
structure AssetInfo where
  type : String
  url : String
  file_path : String
  prompt : String
  model : String
  parameters : List (String × JsonVal) := []
  created_at : String

/-- `AgentResponse` (agent_system_langgraph.py lines 35-41): the structured
result of one conversation turn. -/
structure AgentResponse where
  message : String
  assets : List (String × AssetInfo) := []

/-- Look a key up in a parsed JSON object (Python `dict.get`). -/
def jlookup (fields : List (String × JsonVal)) (k : String) : Option JsonVal :=
  (fields.filter (fun p => p.1 = k)).head?.map (fun p => p.2)

/-- `AssetInfo(**asset_data)` (agent_system_langgraph.py line 292): pydantic
validation of a JSON object into an `AssetInfo`.  Succeeds when the six
required fields are present as strings and `parameters`, if present, is an
object; fails (i.e. the source catches the exception and keeps the raw
dict) otherwise. -/
def asset_info_of_json (fields : List (String × JsonVal)) : Option AssetInfo :=
  match jlookup fields "type", jlookup fields "url", jlookup fields "file_path",
        jlookup fields "prompt", jlookup fields "model", jlookup fields "created_at" with
  | some (.str ty), some (.str url), some (.str fp),
    some (.str pr), some (.str md), some (.str ca) =>
    match jlookup fields "parameters" with
    | none => some { type := ty, url := url, file_path := fp, prompt := pr
                     model := md, parameters := [], created_at := ca }
    | some (.obj ps) => some { type := ty, url := url, file_path := fp, prompt := pr
                               model := md, parameters := ps, created_at := ca }
    | some _ => none
  | _, _, _, _, _, _ => none

/-- One slot of the intermediate `assets` dict built by the extraction loop
(agent_system_langgraph.py lines 289-299): either a validated `AssetInfo`
or the raw value kept after a failed validation. -/
inductive AssetSlot where
  | parsed (info : AssetInfo)
  | raw (v : JsonVal)

/-- The asset-conversion loop (agent_system_langgraph.py lines 289-299). -/
def build_assets (assets_obj : List (String × JsonVal)) : List (String × AssetSlot) :=
  assets_obj.map (fun p =>
    match p.2 with
    | .obj fields =>
      (p.1, match asset_info_of_json fields with
            | some info => .parsed info
            | none => .raw (.obj fields))
    | v => (p.1, .raw v))

/-- `AgentResponse(message=..., assets=...)` (agent_system_langgraph.py lines
301-304): pydantic re-validates the message (must be a string) and every
asset slot against `Dict[str, AssetInfo]`; a slot kept raw after a failed
`AssetInfo` validation fails again here, so construction succeeds exactly
when the message is a string and every slot validated.  A raised
`ValidationError` is NOT caught by the surrounding
`except json.JSONDecodeError` and escapes to the outer handler. -/
def build_structured (parsed_fields : List (String × JsonVal)) : Except String AgentResponse :=
  -- assets_data = parsed_content.get("assets", {}); .items() requires a dict
  match (jlookup parsed_fields "assets").getD (.obj []) with
  | .obj assets_obj =>
    let slots := build_assets assets_obj
    match (jlookup parsed_fields "message").getD (.str "") with
    | .str m =>
      let rec collect : List (String × AssetSlot) → Except String (List (String × AssetInfo))
        | [] => .ok []
        | (k, .parsed info) :: rest => do pure ((k, info) :: (← collect rest))
        | (_, .raw _) :: _ => .error "ValidationError: assets value is not a valid AssetInfo"
      do
        let assets ← collect slots
        pure { message := m, assets := assets }
    | _ => .error "ValidationError: message field must be a string"
  | _ => .error "AttributeError: assets value has no attribute items"

/-- The response-extraction step of `chat_with_agent`
(agent_system_langgraph.py lines 273-327).  `parse` stands for `json.loads`:
`parse content = none` models a `json.JSONDecodeError`.  The
`result.structured_response` fallback at lines 311-314 is dead code because
`agent.invoke` returns a plain dict, on which `hasattr` is false; control
therefore falls through to the final fallback. -/
def extract_response (msgs : List PyMsg) (parse : String → Option JsonVal) :
    Except String AgentResponse :=
  let ai_messages := msgs.filter PyMsg.isAI
  match ai_messages.getLast? with
  | some last_ai =>
    let content := last_ai.content
    (match parse content with
     | some (.obj fields) =>
       if (jlookup fields "message").isSome then build_structured fields
       else .ok { message := content, assets := [] }
     | some _ => .ok { message := content, assets := [] }
     | none => .ok { message := content, assets := [] })
  | none => .ok { message := "I have processed your request.", assets := [] }

/-- `LangGraphAgentManager.chat_with_agent` (agent_system_langgraph.py lines
218-335).  The `runtime` parameter is the outcome of the effectful prefix of
the `try` block — `get_or_create_agent` (LLM construction, tool resolution,
system-prompt compilation) followed by `agent.invoke` — delivering either
the message transcript or the raised exception text.  The enclosing
`except Exception` (lines 329-335) converts ANY exception, from the prefix
or from extraction, into a structured `AgentResponse`; `tools_used` is
computed (lines 259-268) and logged but not returned. -/
def chat_with_agent (agent_id message thread_id : String)
    (runtime : Except String (List PyMsg)) (parse : String → Option JsonVal) :
    AgentResponse :=
  match runtime with
  | .error e => { message := "❌ Error: " ++ e, assets := [] }
  | .ok msgs =>
    let _tools_used := tools_used_of msgs
    match extract_response msgs parse with
    | .ok r => r
    | .error e => { message := "❌ Error: " ++ e, assets := [] }

/-- `ChatRequest` (routes/chat.py lines 15-18). -/
structure ChatRequest where
  message : String
  agent_id : String := "ethereal_painter"
  thread_id : String := "default"

/-- `ChatResponse` (routes/chat.py lines 20-30), minus `dataset_entry_id`
(the decentralized-dataset capture of lines 97-148 is an out-of-scope sink
whose failure is swallowed by its own handler and which never alters the
fields below). -/
structure ChatResponse where
  success : Bool
  response : Option String := none
  assets : List (String × AssetInfo) := []
  error : Option String := none
  agent_id : String
  thread_id : String
  tools_used : Option (List String) := none
  artworks_created : Int := 0
  persona_evolved : Bool := false

/-- The standard-tool list hard-coded in the evolution block of the chat
route (routes/chat.py line 89). -/
def route_standard_tools : List String :=
  ["create_artwork", "analyze_art", "remix_concept", "blockchain_integration"]

/-- The persona-evolution block of the chat route (routes/chat.py lines
73-95): only runs when `tools_used` is non-empty; loads the shared agent
config, applies the matching evolution rules in place and persists after
each one.  Returns the updated registry and the `persona_evolved` flag. -/
def route_evolution_block (ts : String) (tools_used : List String) (agent_id : String)
    (reg : Registry) : Registry × Bool :=
  if tools_used.isEmpty then (reg, false)
  else
    let cfg := get_agent_config reg agent_id
    let (cfg, reg, evolved) :=
      if "create_artwork" ∈ tools_used then
        let c := evolve_persona ts "artwork_creation" "successful" cfg
        (c, create_agent reg agent_id c, true)
      else if "analyze_art" ∈ tools_used ∨ "remix_concept" ∈ tools_used then
        let c := evolve_persona ts "creative_analysis" "insightful" cfg
        (c, create_agent reg agent_id c, true)
      else (cfg, reg, false)
    let custom_tools_used := tools_used.filter (fun t => t ∉ route_standard_tools)
    if custom_tools_used.isEmpty then (reg, evolved)
    else
      let c := evolve_persona ts "custom_tool_usage" "creative_expansion" cfg
      (create_agent reg agent_id c, true)

/-- The `/chat` POST handler (routes/chat.py lines 32-183).  The manager
returns an `AgentResponse`, so the `elif hasattr(result, "message")` branch
at lines 59-64 runs: it reads `message` and `assets` from the result and —
per the source comment "We will need to extract this from somewhere else if
needed" — sets `tools_used = []` unconditionally, so the evolution block at
lines 73-95 is unreachable.  `ts` is the timestamp such an evolution would
record. -/
def chat_route (req : ChatRequest) (runtime : Except String (List PyMsg))
    (parse : String → Option JsonVal) (ts : String) (reg : Registry) :
    ChatResponse × Registry :=
  let result := chat_with_agent req.agent_id req.message req.thread_id runtime parse
  let response_message := result.message
  let assets := result.assets
  let tools_used : List String := []
  let artworks_created : Int := assets.length
  let (reg2, persona_evolved) := route_evolution_block ts tools_used req.agent_id reg
  ({ success := true
     response := some response_message
     assets := assets
     agent_id := req.agent_id
     thread_id := req.thread_id
     tools_used := some tools_used
     artworks_created := artworks_created
     persona_evolved := persona_evolved }, reg2)

/-- Outcome of an HTTP route: a success body or an `HTTPException`
with a status code. -/
inductive RouteResult where
  | ok (body : String)
  | httpError (status : Int) (detail : String)
deriving DecidableEq

/-- Python attribute access `config.studio_id` (routes/agents.py line 89).
The pydantic model `AgentConfig` declares no `studio_id` field
(`agent_config_fields`), so the access raises `AttributeError`
(message punctuation elided).  The `.ok` branch is unreachable for this
model revision. -/
def py_getattr_studio_id (_c : AgentConfig) : Except String (Option String) :=
  if "studio_id" ∈ agent_config_fields then .ok none
  else .error "AttributeError: AgentConfig object has no attribute studio_id"

/-- The `POST /agents` handler `create_agent` (routes/agents.py lines
82-121).  Line 89 evaluates `config.studio_id` inside the `try`; the
resulting `AttributeError` is not an `HTTPException`, so the generic handler
at lines 119-121 converts it into a 500 response and the registry is never
touched.  The 400 validation branches of lines 89-101 (missing or dangling
`studio_id`) sit behind that access; were the attribute present and set,
the code would next call `agent_registry.get_studio`, a method this
`AgentRegistry` revision does not define either, raising again. -/
def create_agent_route (agent_id : String) (config : AgentConfig) (reg : Registry) :
    RouteResult × Registry :=
  match py_getattr_studio_id config with
  | .error e => (.httpError 500 e, reg)
  | .ok none =>
    (.httpError 400 "studio_id is required. Please provide a valid studio_id or create a studio first.", reg)
  | .ok (some _) =>
    (.httpError 500 "AttributeError: AgentRegistry object has no attribute get_studio", reg)

/-- One row of the `generated_artworks` table as written by
`store_artwork_in_db` (agent_tools.py lines 1168-1186); the
`artwork_metadata` timestamp/validation fields depend only on the inputs
already recorded here and are elided. -/
structure ArtworkRow where
  id : String
  agent_id : String
  artwork_type : String
  prompt : String
  negative_prompt : String
  model_name : String
  model_type : String
  parameters : List (String × JsonVal)
  file_path : String
  file_url : String
  file_size : Int
  vlayer_proof_id : Option String

/-- The state touched by `store_artwork_in_db`: the artworks table, the
in-memory `agent_registry.agents` dict, and the persisted agents table. -/
structure ToolsState where
  artworks : List ArtworkRow
  agents_mem : Registry
  agents_db : Registry

/-- Arguments of `store_artwork_in_db` (agent_tools.py lines 1128-1141).
`file_size` is `Option Int` because the source checks `file_size is None`. -/
structure StoreArtworkArgs where
  agent_id : String
  artwork_id : String
  prompt : String
  negative_prompt : String
  model_name : String
  model_type : String
  parameters : List (String × JsonVal)
  file_path : String
  file_url : String
  file_size : Option Int
  artwork_type : String := "image"
  vlayer_proof_id : Option String := none

/-- `store_artwork_in_db` (agent_tools.py lines 1128-1211).  Returns the
function outcome together with the post-state: the `except` handler rolls
back the session and re-raises, but the artwork row was already committed
(line 1188) and the in-place increment of `artworks_created` (line 1194)
already mutated the shared in-memory config object when the agent exists in
the registry dict (for an unknown agent, `get_agent_config` returns a fresh
default object and the mutation is invisible).  The assignment
`agent_config.artwork_ids = []` at line 1198 targets a name that is not a
pydantic field of this `AgentConfig` revision, so pydantic raises
`ValueError` and `create_agent` (line 1202, the persistence step) is never
reached.  `os.path.exists` probes (lines 1156-1159) only emit warnings and
are elided. -/
def store_artwork_in_db (a : StoreArtworkArgs) (st : ToolsState) :
    Except String String × ToolsState :=
  if a.agent_id = "" ∨ a.artwork_id = "" then
    (.error "ValueError: agent_id and artwork_id are required", st)
  else if a.file_path = "" ∨ a.file_url = "" then
    (.error "ValueError: file_path and file_url are required", st)
  else
    let file_size := match a.file_size with
      | none => 0
      | some n => if n ≤ 0 then 0 else n
    let row : ArtworkRow :=
      { id := a.artwork_id, agent_id := a.agent_id, artwork_type := a.artwork_type
        prompt := a.prompt, negative_prompt := a.negative_prompt
        model_name := a.model_name, model_type := a.model_type
        parameters := a.parameters, file_path := a.file_path, file_url := a.file_url
        file_size := file_size, vlayer_proof_id := a.vlayer_proof_id }
    let st1 := { st with artworks := st.artworks ++ [row] }
    let cfg := get_agent_config st1.agents_mem a.agent_id
    let cfg1 := { cfg with artworks_created := cfg.artworks_created + 1 }
    let mem1 :=
      if (st1.agents_mem.filter (fun p => p.1 = a.agent_id)).isEmpty then st1.agents_mem
      else st1.agents_mem.map (fun p => if p.1 = a.agent_id then (a.agent_id, cfg1) else p)
    let st2 := { st1 with agents_mem := mem1 }
    -- hasattr(agent_config, "artwork_ids") is false, so line 1198 assigns to
    -- it; "artwork_ids" ∉ agent_config_fields, hence pydantic raises:
    if "artwork_ids" ∈ agent_config_fields then (.ok a.artwork_id, st2)
    else (.error "ValueError: AgentConfig object has no field artwork_ids", st2)

/-- The configuration of claim C1: `tools_enabled` is the empty list (and
there are no custom tools). -/
def c1_config : AgentConfig := { default_config with tools_enabled := [] }

/-- Concrete transcript for claim C2: the model requested the recognized
artwork-creation tool `create_artwork` once and then produced a final
free-text answer. -/
def c2_msgs : List PyMsg :=
  [.human "draw a cat", .ai "" ["create_artwork"], .tool "ok",
   .ai "Here is your cat artwork." []]

/-- Concrete registry for claim C2: one agent with zero interactions. -/
def c2_reg : Registry := [("ethereal_painter", { default_config with id := "ethereal_painter" })]

/-- Concrete chat-route invocation for claim C2. -/
def c2_out : ChatResponse × Registry :=
  chat_route { message := "draw a cat", agent_id := "ethereal_painter", thread_id := "t1" }
    (.ok c2_msgs) (fun _ => none) "2026-01-01T00:00:00" c2_reg

/-- Concrete arguments for claim C10: a valid artwork store request. -/
def c10_args : StoreArtworkArgs :=
  { agent_id := "ethereal_painter", artwork_id := "artwork_001", prompt := "a cat"
    negative_prompt := "", model_name := "AnythingV5", model_type := "image"
    parameters := [], file_path := "static/artworks/artwork_001.png"
    file_url := "http://localhost:8000/static/artworks/artwork_001.png"
    file_size := some 2048 }

/-- Concrete state for claim C10: one registered agent, mirrored in the
in-memory dict and the persisted agents table, and no artworks yet. -/
def c10_state : ToolsState :=
  { artworks := []
    agents_mem := [("ethereal_painter", { default_config with id := "ethereal_painter" })]
    agents_db := [("ethereal_painter", { default_config with id := "ethereal_painter" })] }

/-- Concrete outcome of `store_artwork_in_db` for claim C10. -/
def c10_out : Except String String × ToolsState := store_artwork_in_db c10_args c10_state

/-! Helper lemmas about `evolve_persona`. -/

theorem trait_gain_interaction_count (c : AgentConfig) :
    (trait_gain c).interaction_count = c.interaction_count := by
  unfold trait_gain; split_ifs <;> rfl

theorem trait_gain_artworks_created (c : AgentConfig) :
    (trait_gain c).artworks_created = c.artworks_created := by
  unfold trait_gain; split_ifs <;> rfl

theorem trait_gain_history (c : AgentConfig) :
    (trait_gain c).persona_evolution_history = c.persona_evolution_history := by
  unfold trait_gain; split_ifs <;> rfl

theorem evolve_interaction_count (ts it o : String) (c : AgentConfig) :
    (evolve_persona ts it o c).interaction_count = c.interaction_count + 1 := by
  unfold evolve_persona
  split_ifs with h
  · rw [trait_gain_interaction_count]
  · rfl

theorem evolve_artworks_created (ts it o : String) (c : AgentConfig) :
    (evolve_persona ts it o c).artworks_created
      = if it = "artwork_creation" then c.artworks_created + 1 else c.artworks_created := by
  unfold evolve_persona
  split_ifs with h
  · rw [trait_gain_artworks_created]
  · rfl

theorem evolve_history_length (ts it o : String) (c : AgentConfig) :
    (evolve_persona ts it o c).persona_evolution_history.length
      = c.persona_evolution_history.length + 1 := by
  unfold evolve_persona
  split_ifs with h
  · rw [trait_gain_history]; simp
  · simp

/-- Claim C3 (confirmed): for every `AgentConfig` and every finite sequence of
`evolve_persona` calls, `interaction_count` afterwards equals its initial
value plus the number of calls, `artworks_created` equals its initial value
plus the number of calls whose interaction type is `artwork_creation`, and
each call appends exactly one entry to `persona_evolution_history`. -/
theorem c3_monotonicity (calls : List (String × String × String)) (c : AgentConfig) :
    (apply_evolutions calls c).interaction_count
        = c.interaction_count + (calls.length : Int) ∧
    (apply_evolutions calls c).artworks_created
        = c.artworks_created
            + ((calls.filter (fun x => x.2.1 = "artwork_creation")).length : Int) ∧
    (apply_evolutions calls c).persona_evolution_history.length
        = c.persona_evolution_history.length + calls.length := by
  induction calls generalizing c with
  | nil => simp [apply_evolutions]
  | cons x xs ih =>
    have hstep := ih (evolve_persona x.1 x.2.1 x.2.2 c)
    refine ⟨?_, ?_, ?_⟩
    · have h1 := hstep.1
      simp only [apply_evolutions, List.foldl_cons] at h1 ⊢
      rw [h1, evolve_interaction_count]
      push_cast [List.length_cons]
      ring
    · have h2 := hstep.2.1
      simp only [apply_evolutions, List.foldl_cons] at h2 ⊢
      rw [h2, evolve_artworks_created]
      by_cases hx : x.2.1 = "artwork_creation" <;>
        simp [hx, List.filter_cons] <;> push_cast <;> ring
    · have h3 := hstep.2.2
      simp only [apply_evolutions, List.foldl_cons] at h3 ⊢
      rw [h3, evolve_history_length]
      simp only [List.length_cons]
      omega

theorem trait_gain_core_of_mem (c : AgentConfig) (h : "experienced" ∈ c.core_traits) :
    (trait_gain c).core_traits = c.core_traits := by
  unfold trait_gain
  split_ifs with g1 g2 g3 g4 <;> first | rfl | exact absurd h g2.1

theorem trait_gain_core_hit (c : AgentConfig)
    (h1 : "experienced" ∉ c.core_traits) (h2 : "experienced" ∉ c.personality_traits)
    (h3 : c.core_traits.length < 5) (h5 : c.artworks_created % 5 = 0) :
    (trait_gain c).core_traits = c.core_traits ++ ["experienced"] := by
  unfold trait_gain
  rw [if_pos h5, if_pos ⟨h1, h2⟩, if_pos h3]

theorem trait_gain_id_of_not_mult (c : AgentConfig) (h5 : c.artworks_created % 5 ≠ 0) :
    trait_gain c = c := by
  unfold trait_gain
  rw [if_neg h5]

theorem evolve_artwork_eq (ts o : String) (c : AgentConfig) :
    evolve_persona ts "artwork_creation" o c
      = trait_gain { c with
          interaction_count := c.interaction_count + 1
          persona_evolution_history := c.persona_evolution_history
            ++ [⟨ts, "artwork_creation", o, c.interaction_count + 1⟩]
          artworks_created := c.artworks_created + 1 } := rfl

theorem evolve_core_traits_of_mem (ts it o : String) (c : AgentConfig)
    (h : "experienced" ∈ c.core_traits) :
    (evolve_persona ts it o c).core_traits = c.core_traits := by
  unfold evolve_persona
  split_ifs with hb
  · exact trait_gain_core_of_mem _ h
  · rfl

theorem apply_artwork_core_of_mem (calls : List (String × String)) (c : AgentConfig)
    (h : "experienced" ∈ c.core_traits) :
    (apply_artwork_calls calls c).core_traits = c.core_traits := by
  induction calls generalizing c with
  | nil => rfl
  | cons x xs ih =>
    simp only [apply_artwork_calls, List.foldl_cons] at ih ⊢
    rw [ih _ (by rw [evolve_core_traits_of_mem _ _ _ _ h]; exact h),
        evolve_core_traits_of_mem _ _ _ _ h]

theorem evolve_artwork_hit (ts o : String) (c : AgentConfig)
    (h1 : "experienced" ∉ c.core_traits) (h2 : "experienced" ∉ c.personality_traits)
    (h3 : c.core_traits.length < 5) (h5 : (c.artworks_created + 1) % 5 = 0) :
    (evolve_persona ts "artwork_creation" o c).core_traits
      = c.core_traits ++ ["experienced"] := by
  rw [evolve_artwork_eq]
  exact trait_gain_core_hit _ h1 h2 h3 h5

theorem evolve_artwork_miss (ts o : String) (c : AgentConfig)
    (h5 : (c.artworks_created + 1) % 5 ≠ 0) :
    (evolve_persona ts "artwork_creation" o c).core_traits = c.core_traits ∧
    (evolve_persona ts "artwork_creation" o c).personality_traits = c.personality_traits := by
  rw [evolve_artwork_eq, trait_gain_id_of_not_mult _ h5]
  exact ⟨rfl, rfl⟩

theorem c4_aux (calls : List (String × String)) :
    ∀ c : AgentConfig, "experienced" ∉ c.core_traits → "experienced" ∉ c.personality_traits →
      c.core_traits.length < 5 →
    ((∃ k : ℕ, k < calls.length ∧ (c.artworks_created + (k : Int) + 1) % 5 = 0) →
       (apply_artwork_calls calls c).core_traits.count "experienced" = 1) ∧
    ((∀ k : ℕ, k < calls.length → (c.artworks_created + (k : Int) + 1) % 5 ≠ 0) →
       (apply_artwork_calls calls c).core_traits.count "experienced" = 0) := by
  induction calls with
  | nil =>
    intro c h1 h2 h3
    constructor
    · rintro ⟨k, hk, -⟩; simp at hk
    · intro _
      simp only [apply_artwork_calls, List.foldl_nil]
      exact List.count_eq_zero.mpr h1
  | cons x xs ih =>
    intro c h1 h2 h3
    by_cases h5 : (c.artworks_created + 1) % 5 = 0
    · -- the first call crosses a multiple of 5: the trait is appended and
      -- absorbed by the remaining calls
      have hcore := evolve_artwork_hit x.1 x.2 c h1 h2 h3 h5
      have hmem : "experienced" ∈ (evolve_persona x.1 "artwork_creation" x.2 c).core_traits := by
        rw [hcore]; simp
      have habs := apply_artwork_core_of_mem xs _ hmem
      have hcount : (apply_artwork_calls (x :: xs) c).core_traits.count "experienced" = 1 := by
        simp only [apply_artwork_calls, List.foldl_cons] at habs ⊢
        rw [habs, hcore]
        rw [List.count_append]
        rw [List.count_eq_zero.mpr h1]
        simp
      constructor
      · intro _; exact hcount
      · intro hall
        exfalso
        exact hall 0 (by simp) (by push_cast; omega)
    · -- no crossing on the first call: the clean state is preserved
      have hmiss := evolve_artwork_miss x.1 x.2 c h5
      have hart := evolve_artworks_created x.1 "artwork_creation" x.2 c
      rw [if_pos rfl] at hart
      have ih2 := ih (evolve_persona x.1 "artwork_creation" x.2 c)
        (by rw [hmiss.1]; exact h1) (by rw [hmiss.2]; exact h2)
        (by rw [hmiss.1]; exact h3)
      constructor
      · rintro ⟨k, hk, hP⟩
        have hk0 : k ≠ 0 := by
          rintro rfl
          push_cast at hP
          exact h5 (by omega)
        obtain ⟨j, rfl⟩ : ∃ j, k = j + 1 := ⟨k - 1, by omega⟩
        simp only [apply_artwork_calls, List.foldl_cons]
        refine ih2.1 ⟨j, ?_, ?_⟩
        · simp at hk; omega
        · rw [hart]
          push_cast at hP ⊢
          omega
      · intro hall
        simp only [apply_artwork_calls, List.foldl_cons]
        refine ih2.2 ?_
        intro j hj
        have := hall (j + 1) (by simp; omega)
        rw [hart]
        push_cast at this ⊢
        omega

/-- Claim C4 (confirmed): for every `AgentConfig` that does not yet carry the
trait "experienced" (neither in `core_traits` nor in the legacy
`personality_traits`) and has fewer than 5 core traits, a sequence of
`evolve_persona(..., "artwork_creation", ...)` calls adds the literal trait
"experienced" to `core_traits` exactly once as soon as some call lands
`artworks_created` on a (positive) multiple of 5, and never duplicates it;
with no such crossing the trait never appears. -/
theorem c4_trait_gain (c : AgentConfig) (calls : List (String × String))
    (h1 : "experienced" ∉ c.core_traits) (h2 : "experienced" ∉ c.personality_traits)
    (h3 : c.core_traits.length < 5) (h0 : 0 ≤ c.artworks_created) :
    ((∃ k : ℕ, k < calls.length ∧ (c.artworks_created + (k : Int) + 1) % 5 = 0) →
       (apply_artwork_calls calls c).core_traits.count "experienced" = 1) ∧
    ((∀ k : ℕ, k < calls.length → (c.artworks_created + (k : Int) + 1) % 5 ≠ 0) →
       (apply_artwork_calls calls c).core_traits.count "experienced" = 0) :=
  c4_aux calls c h1 h2 h3

/-- Witness for C4: the default configuration (3 core traits, no
"experienced", `artworks_created = 0`) evolved through five
`artwork_creation` calls crosses 4→5, and `core_traits` then counts
"experienced" exactly once. -/
theorem c4_trait_gain_witness :
    (apply_artwork_calls [("t1", "successful"), ("t2", "successful"), ("t3", "successful"),
        ("t4", "successful"), ("t5", "successful")] default_config).core_traits.count
      "experienced" = 1 :=
  (c4_trait_gain default_config _ (by decide) (by decide) (by decide) (by decide)).1
    ⟨4, by decide, by decide⟩

theorem mem_get_all_custom_tools {t : AgentTool} (registry : List (String × CustomToolInfo))
    (names : List String) (h : t ∈ get_all_custom_tools_for_agent registry names) :
    t.isStd = false := by
  suffices h2 : ∀ acc : List AgentTool,
      t ∈ registry.foldl (fun acc p =>
        if ¬ names.isEmpty ∧ p.2.name ∉ names then acc else acc ++ [.custom p.2.name]) acc →
      t ∈ acc ∨ t.isStd = false by
    rcases h2 [] h with h3 | h3
    · simp at h3
    · exact h3
  clear h
  induction registry with
  | nil => intro acc h; exact Or.inl h
  | cons p ps ih =>
    intro acc h
    simp only [List.foldl_cons] at h
    rcases ih _ h with h1 | h1
    · by_cases hc : ¬ names.isEmpty ∧ p.2.name ∉ names
      · rw [if_pos hc] at h1; exact Or.inl h1
      · rw [if_neg hc] at h1
        rcases List.mem_append.mp h1 with h2 | h2
        · exact Or.inl h2
        · simp at h2; subst h2; exact Or.inr rfl
    · exact Or.inr h1


/-- Claim C1 (refuted as stated): with `tools_enabled = []` the resolver is
claimed to return zero standard tools; in the code the filter at
agent_system_langgraph.py line 139 is guarded by `if config.tools_enabled:`,
which is falsy for an empty list, so filtering is skipped and ALL three
standard agent-aware tools are returned. -/
theorem c1_counterexample :
    get_agent_tools c1_config [] = get_agent_aware_tools "default_agent" none ∧
    ((get_agent_tools c1_config []).filter AgentTool.isStd).length ≠ 0 := by
  constructor
  · rfl
  · decide

/-- Claim C1 (amended): with `tools_enabled = []` the filtering step is
skipped, so the resolved tool set contains all three standard agent-aware
tools, and its non-standard part is exactly the custom tools resolved from
the registry for the names listed in `custom_tools` (none when
`custom_tools` is empty). -/
theorem c1_amended (c : AgentConfig) (registry : List (String × CustomToolInfo))
    (h : c.tools_enabled = []) :
    ((get_agent_tools c registry).filter AgentTool.isStd).length = 3 ∧
    (get_agent_tools c registry).filter (fun t => ! t.isStd)
      = (if c.custom_tools.isEmpty then []
         else get_all_custom_tools_for_agent registry (config_custom_tool_names c)) := by
  have hstd : (get_agent_aware_tools c.id none).filter AgentTool.isStd
      = get_agent_aware_tools c.id none := by
    simp [get_agent_aware_tools, AgentTool.isStd]
  have hnot : (get_agent_aware_tools c.id none).filter (fun t => ! t.isStd) = [] := by
    simp [get_agent_aware_tools, AgentTool.isStd]
  have hcustom_std : (get_all_custom_tools_for_agent registry
      (config_custom_tool_names c)).filter AgentTool.isStd = [] := by
    rw [List.filter_eq_nil_iff]
    intro t ht
    simp [mem_get_all_custom_tools _ _ ht]
  have hcustom_keep : (get_all_custom_tools_for_agent registry
      (config_custom_tool_names c)).filter (fun t => ! t.isStd)
      = get_all_custom_tools_for_agent registry (config_custom_tool_names c) := by
    rw [List.filter_eq_self]
    intro t ht
    simp [mem_get_all_custom_tools _ _ ht]
  unfold get_agent_tools
  rw [h]
  simp only [List.isEmpty_nil, eq_self_iff_true, not_true, if_false]
  by_cases hct : c.custom_tools.isEmpty
  · rw [if_neg (by simp [hct]), if_pos hct]
    exact ⟨by rw [hstd]; rfl, by rw [hnot]⟩
  · rw [if_pos (by simp [hct]), if_neg hct]
    constructor
    · rw [List.filter_append, hstd, hcustom_std, List.append_nil]
      rfl
    · rw [List.filter_append, hnot, hcustom_keep, List.nil_append]

/-- Witness for C1 (amended): the concrete configuration of the
counterexample, with an empty custom-tool registry. -/
theorem c1_amended_witness :
    ((get_agent_tools c1_config []).filter AgentTool.isStd).length = 3 ∧
    (get_agent_tools c1_config []).filter (fun t => ! t.isStd)
      = (if c1_config.custom_tools.isEmpty then []
         else get_all_custom_tools_for_agent [] (config_custom_tool_names c1_config)) :=
  c1_amended c1_config [] rfl

/-- Claim C6 (refuted as stated): the wrapped `generate_image` tool DOES
expose `seed` as a parameter the language model is asked to supply
(it is in the wrapper signature that `StructuredTool.from_function` turns
into the tool schema), and the tool set resolved by `_get_agent_tools`
carries `blockchain_seed = None` (line 135 passes only `config.id`), so a
wrapper invocation without an explicit caller seed forwards `seed = None`
rather than the agent blockchain seed. -/
theorem c6_counterexample :
    "seed" ∈ generate_image_exposed_params ∧
    (get_agent_tools { default_config with id := "ethereal_painter" } []).head?
      = some (.std "generate_image" "ethereal_painter" none) ∧
    (agent_aware_generate_image "ethereal_painter" none { prompt := "a cat" }).seed = none := by
  refine ⟨by decide, ?_, rfl⟩
  rfl

/-- Claim C6 (amended): each wrapped standard generation tool always injects
`agent_id` equal to the agent id it was built with, and `agent_id` is not an
exposed parameter; when the caller supplies no seed, the injected seed
equals the `blockchain_seed` the wrapper was built with (reduced modulo
10000 when above 10000) — but `seed` itself remains an exposed parameter,
and `_get_agent_tools` always builds the wrappers with
`blockchain_seed = None`, so no blockchain seed is ever injected through the
agent tool resolver. -/
theorem c6_amended (agent_id : String) (bs : Option Int) (a : GenImageArgs)
    (v : GenVideoArgs) (ha : a.seed = none) (hv : v.seed = none) :
    (agent_aware_generate_image agent_id bs a).agent_id = agent_id ∧
    (agent_aware_generate_video agent_id bs v).agent_id = agent_id ∧
    "agent_id" ∉ generate_image_exposed_params ∧
    "agent_id" ∉ generate_video_exposed_params ∧
    "seed" ∈ generate_image_exposed_params ∧
    (agent_aware_generate_image agent_id bs a).seed
      = bs.map (fun b => if b > 10000 then b % 10000 else b) ∧
    (agent_aware_generate_video agent_id bs v).seed
      = bs.map (fun b => if b > 10000 then b % 10000 else b) ∧
    (∀ (c : AgentConfig) (registry : List (String × CustomToolInfo)) (n aid : String)
        (s : Option Int), AgentTool.std n aid s ∈ get_agent_tools c registry →
        s = none ∧ aid = c.id) := by
  refine ⟨rfl, rfl, by decide, by decide, by decide, ?_, ?_, ?_⟩
  · unfold agent_aware_generate_image
    rw [ha]
    cases bs <;> rfl
  · unfold agent_aware_generate_video
    rw [hv]
    cases bs <;> rfl
  · intro c registry n aid s hmem
    unfold get_agent_tools at hmem
    have haware : AgentTool.std n aid s ∈ get_agent_aware_tools c.id none →
        s = none ∧ aid = c.id := by
      intro hin
      simp [get_agent_aware_tools] at hin
      rcases hin with ⟨-, h1, h2⟩ | ⟨-, h1, h2⟩ | ⟨-, h1, h2⟩ <;> exact ⟨h2, h1⟩
    by_cases hct : ¬ c.custom_tools.isEmpty
    · rw [if_pos hct] at hmem
      rcases List.mem_append.mp hmem with hin | hin
      · split_ifs at hin with hf
        · exact haware hin
        · exact haware (List.mem_of_mem_filter hin)
      · exact absurd (mem_get_all_custom_tools _ _ hin) (by simp [AgentTool.isStd])
    · rw [if_neg hct] at hmem
      split_ifs at hmem with hf
      · exact haware hmem
      · exact haware (List.mem_of_mem_filter hmem)

/-- Witness for C6 (amended): a wrapper built directly with blockchain seed
123456 and invoked with no caller seed injects 123456 mod 10000 = 3456. -/
theorem c6_amended_witness :
    (agent_aware_generate_image "a1" (some 123456) { prompt := "x" }).seed = some 3456 := by
  have h := c6_amended "a1" (some 123456) { prompt := "x" } { prompt := "y" } rfl rfl
  rw [h.2.2.2.2.2.1]
  rfl

/-- Claim C5 (confirmed): `chat_with_agent` always returns a structured
`AgentResponse` (its codomain — nothing propagates); any exception raised
inside the conversation turn, whether by the effectful prefix
(agent construction, prompt compilation, `agent.invoke`) or by the
response-extraction step, is surfaced as a structured failure carrying the
triggering error message and an empty assets map. -/
theorem c5_chat_never_throws (agent_id message thread_id e : String)
    (runtime : Except String (List PyMsg)) (parse : String → Option JsonVal)
    (h : runtime = .error e ∨
         ∃ msgs, runtime = .ok msgs ∧ extract_response msgs parse = .error e) :
    chat_with_agent agent_id message thread_id runtime parse
      = { message := "❌ Error: " ++ e, assets := [] } := by
  rcases h with h | ⟨msgs, hr, he⟩
  · rw [h]; rfl
  · rw [hr]
    simp only [chat_with_agent, he]

/-- Witness for C5: a runtime that raises the exception "boom". -/
theorem c5_chat_never_throws_witness :
    chat_with_agent "ethereal_painter" "hi" "t1" (.error "boom") (fun _ => none)
      = { message := "❌ Error: boom", assets := [] } :=
  c5_chat_never_throws "ethereal_painter" "hi" "t1" "boom" _ _ (Or.inl rfl)

/-- Claim C9 (confirmed): when the final AI message content is a string that
`json.loads` cannot parse (`parse content = none`), the response-extraction
step returns exactly the free text with an empty assets map; the parse
failure is caught at the `except json.JSONDecodeError` and never
propagates. -/
theorem c9_malformed_recovery (msgs : List PyMsg) (parse : String → Option JsonVal)
    (content : String) (tcs : List String)
    (hlast : (msgs.filter PyMsg.isAI).getLast? = some (.ai content tcs))
    (hparse : parse content = none) :
    extract_response msgs parse = .ok { message := content, assets := [] } := by
  simp only [extract_response, hlast, PyMsg.content, hparse]

/-- Witness for C9: a transcript whose final AI message is plain free text,
with a parser that fails on every input. -/
theorem c9_malformed_recovery_witness :
    extract_response [.human "hi", .ai "Sure, here is a thought about color." []]
        (fun _ => none)
      = .ok { message := "Sure, here is a thought about color.", assets := [] } :=
  c9_malformed_recovery _ _ "Sure, here is a thought about color." [] rfl rfl

/-- Claim C2 (code bug): in a turn where the recognized artwork-creation tool
`create_artwork` was used, the agent manager computes
`tools_used = ["create_artwork"]` internally, but returns only the
`AgentResponse`; the chat route hard-codes `tools_used = []`, so the turn
reports no tools, `evolve_persona` is never called, `persona_evolved` stays
false, and the registry (hence `interaction_count` and `artworks_created`)
is unchanged — contradicting the claimed evolution behaviour. -/
theorem c2_route_never_evolves :
    tools_used_of c2_msgs = ["create_artwork"] ∧
    c2_out.1.tools_used = some [] ∧
    c2_out.1.persona_evolved = false ∧
    c2_out.2 = c2_reg ∧
    (get_agent_config c2_out.2 "ethereal_painter").interaction_count = 0 ∧
    (get_agent_config c2_out.2 "ethereal_painter").artworks_created = 0 :=
  ⟨rfl, rfl, rfl, rfl, rfl, rfl⟩

/-- Claim C7 (code bug): system-prompt compilation never succeeds, for ANY
configuration — the call from `AgentConfig.get_system_prompt` to
`get_comprehensive_system_prompt` omits the required `studio_items`
parameter, so CPython raises `TypeError` before the template (whose default
studio name is "Untitled Studio") can be rendered. -/
theorem c7_prompt_compile_raises (c : AgentConfig) :
    get_system_prompt c
      = .error "TypeError: get_comprehensive_system_prompt missing 1 required positional argument: studio_items" :=
  rfl

/-- Claim C8 (code bug): every create-agent request — with a missing,
dangling, or even valid `studio_id` — fails with an HTTP 500 internal error
(an `AttributeError`, since this `AgentConfig` revision has no `studio_id`
field), not with the intended 400 validation error; the agent is indeed
never persisted (the registry is returned unchanged). -/
theorem c8_create_agent_always_500 (agent_id : String) (config : AgentConfig)
    (reg : Registry) :
    create_agent_route agent_id config reg
      = (.httpError 500 "AttributeError: AgentConfig object has no attribute studio_id", reg) :=
  rfl

/-- Claim C10 (code bug): a well-formed `store_artwork_in_db` call with a
non-empty agent id never succeeds: after committing the artwork row and
bumping `artworks_created` on the in-memory config object, the assignment to
the non-existent `artwork_ids` field raises `ValueError`, so the updated
configuration is never persisted (the agents table is unchanged) —
while, as the claim states for the frame part, `interaction_count`,
`persona_evolution_history` and `core_traits` are untouched and
`evolve_persona` is bypassed. -/
theorem c10_store_artwork_raises :
    c10_out.1 = .error "ValueError: AgentConfig object has no field artwork_ids" ∧
    c10_out.2.agents_db = c10_state.agents_db ∧
    c10_out.2.artworks.length = 1 ∧
    (get_agent_config c10_out.2.agents_mem "ethereal_painter").artworks_created = 1 ∧
    (get_agent_config c10_out.2.agents_mem "ethereal_painter").interaction_count = 0 ∧
    (get_agent_config c10_out.2.agents_mem "ethereal_painter").persona_evolution_history = [] ∧
    (get_agent_config c10_out.2.agents_mem "ethereal_painter").core_traits
      = default_config.core_traits :=
  ⟨rfl, rfl, rfl, rfl, rfl, rfl, rfl⟩
